import Mathlib

/-!
Verification development for the 1D_LAG hydrodynamics code.

The shallow embedding below translates the 1-D ALE GRP march
(`src/finite_volume/GRP_solver_ALE_source.c`, function
`GRP_solver_ALE_source_Undone`), the tail of `src/hydrocode_1D/hydrocode.c`
(`main`), and the element-count checks of the field readers
(`src/file_io/_1D_file_in.c` and `src/file_io/file_2D_in.c`).

Modelling conventions:
* C doubles are modelled by `ℚ`; a slot that the program may leave at
  `INFINITY` is modelled by `Option ℚ` with `none` standing for `INFINITY`.
* `libm`'s `sqrt` is external to the repository; the march is parametric in a
  function `sqrtQ : ℚ → ℚ` standing for it.  The sound speed only feeds the
  CFL minimum `h_S_max`.
* The GRP interface solver `linear_GRP_solver_Edir` is declared in
  `include/riemann_solver.h` but its translation unit is not among the
  sources; the march is parametric in a function `grp` returning the star
  state `mid`, its time derivative `dire`, and two finiteness flags that
  model `isfinite(mid[1])`, `isfinite(mid[2])`.
* `goto return_NULL` (freeing the buffers and returning without the step's
  bookkeeping) is modelled by the outcome `StepRes.abort`.
-/

namespace ALE

/-- Modelled from the spec: the two-argument minmod limiter of the missing
`tools` translation unit — `minmod2(a,b) = 0` if `a*b ≤ 0`, else
`sign(a) * min(|a|, |b|)`. -/
def minmod2 {α : Type} [LinearOrderedField α] (a b : α) : α :=
  if a * b ≤ 0 then 0 else if 0 < a then min |a| |b| else -(min |a| |b|)

/-- Modelled from the spec: the three-argument minmod limiter of the missing
`tools` translation unit — zero unless all three arguments share a strict
sign, in which case it is that sign times the smallest absolute value. -/
def minmod3 {α : Type} [LinearOrderedField α] (a b c : α) : α :=
  if 0 < a ∧ 0 < b ∧ 0 < c then min |a| (min |b| |c|)
  else if a < 0 ∧ b < 0 ∧ c < 0 then -(min |a| (min |b| |c|))
  else 0

/-- Result of one entry of the flux-building loop (`GRP_solver_ALE_source.c`
lines 348-364): the three numerical fluxes and the interface-state values as
they stand after the loop entry (the code increments them a second time after
forming the fluxes). -/
structure FluxOut where
  F1 : ℚ
  F2 : ℚ
  F3 : ℚ
  Rn : ℚ
  Un : ℚ
  Pn : ℚ
deriving DecidableEq

/-- One entry of the flux-building loop: the star state `mid` is advanced by
`0.5 * tau * dire`, the fluxes are formed from the advanced values, and then
the same half-step increment is added once more (the doubled
`RHO_next[j] += 0.5*tau*RHO_t[j]` lines). -/
def fluxBlock (gamma tau : ℚ) (mid dire : ℚ × ℚ × ℚ) : FluxOut :=
  let R1 := mid.1 + 0.5 * tau * dire.1
  let U1 := mid.2.1 + 0.5 * tau * dire.2.1
  let P1 := mid.2.2 + 0.5 * tau * dire.2.2
  let f1 := R1 * U1
  let f2 := f1 * U1 + P1
  let f3 := ((gamma / (gamma - 1)) * P1 + 0.5 * f1 * U1) * U1
  { F1 := f1, F2 := f2, F3 := f3,
    Rn := R1 + 0.5 * tau * dire.1,
    Un := U1 + 0.5 * tau * dire.2.1,
    Pn := P1 + 0.5 * tau * dire.2.2 }

/-- Outcome of the element-count logic of the 1-D reader. -/
inductive Read1D where
  | ok (c3 : ℕ) : Read1D
  | exit2 : Read1D
deriving DecidableEq

/-- Element-count logic of `STR_FLU_INI` in `_1D_file_in.c` (lines 32-45):
`num_cell < 1` is a read error; an unset `config[3]` (`INFINITY`, modelled
`none`) is adopted from the file; an established count must match exactly or
the program exits with status 2. -/
def fluCount1D (numCell : ℕ) (c3 : Option ℕ) : Read1D :=
  if numCell < 1 then .exit2
  else
    match c3 with
    | none => .ok numCell
    | some v => if numCell ≠ v then .exit2 else .ok v

/-- The three count-related configuration slots read by the 2-D reader:
`config[3]` (cell count), `config[13]` (columns), `config[14]` (lines);
`none` models the unset value `INFINITY`. -/
structure Conf2D where
  c3 : Option ℕ
  c13 : Option ℕ
  c14 : Option ℕ
deriving DecidableEq

/-- Outcome of the element-count logic of the 2-D reader. -/
inductive Read2D where
  | ok (c : Conf2D) : Read2D
  | exit2 : Read2D
deriving DecidableEq

/-- Element-count logic of `flu_var_init` in `file_2D_in.c` (lines 22-43).
The mismatch test is the `else` of the third `if` alone: it runs only when
`config[14]` is already established; when `config[14]` is still unset the
counts of the file are adopted and nothing is compared. -/
def fluCount2D (line column : ℕ) (c : Conf2D) : Read2D :=
  let numCell := line * column
  if numCell < 1 then .exit2
  else
    let c3v := c.c3.getD numCell
    let c13v := c.c13.getD column
    match c.c14 with
    | none => .ok ⟨some c3v, some c13v, some line⟩
    | some l14 =>
        if numCell ≠ c3v ∨ column ≠ c13v ∨ line ≠ l14 then .exit2
        else .ok ⟨some c3v, some c13v, some l14⟩

/-- The configuration slots consumed by the 1-D ALE march.  Slots that the
program may leave at `INFINITY` are `Option ℚ` with `none` for `INFINITY`. -/
structure Config where
  t_all : Option ℚ
  eps : ℚ
  gamma : ℚ
  CFL : ℚ
  h : ℚ
  tau16 : Option ℚ
  bound : ℤ
  alpha : ℚ

/-- One `fmin` of the `h_S_max` accumulation; the accumulator starts at
`INFINITY`, modelled by `none`. -/
def fminI (acc : Option ℚ) (x : ℚ) : Option ℚ :=
  match acc with
  | none => some x
  | some a => some (min a x)

/-- The CFL contributions of the interface loop in loop order: for each
interface `j = 0..m` first the left contribution `f j`, then the right
contribution `g j`. -/
def contribs (f g : ℕ → ℚ) : ℕ → List ℚ
  | 0 => [f 0, g 0]
  | m + 1 => contribs f g m ++ [f (m + 1), g (m + 1)]

/-- Running `fmin` over a list of contributions, starting from `INFINITY`. -/
def runMin (l : List ℚ) : Option ℚ := l.foldl fminI none

/-- The clamp test `time_c + tau > t_all - eps` on extended values
(`none` = `INFINITY`): an infinite `t_all` makes the right side infinite and
the test false; an infinite `time_c` with finite `t_all` makes it true. -/
def clampCond (tc : Option ℚ) (tau : ℚ) (tAll : Option ℚ) (eps : ℚ) : Bool :=
  match tAll with
  | none => false
  | some T =>
      match tc with
      | none => true
      | some c => decide (c + tau > T - eps)

/-- The guard of lines 340-341: recompute `tau` unless the total time is
infinite while a finite positive fixed `config[16]` is present. -/
def tauRecomputeCond (cfg : Config) : Bool :=
  cfg.t_all.isSome || cfg.tau16.isNone || decide (cfg.tau16.getD 0 ≤ 0)

/-- Lines 340-345: propose `tau = CFL * h_S_max` and clamp it to
`t_all - time_c`, or keep the previous `tau` in fixed-step mode.  The
`getD 0` defaults are only reached when both `t_all` and `time_c` are finite
(the clamp fires with an infinite `t_all` never, and an infinite `time_c`
only occurs when `t_all` is infinite). -/
def tauUpdate (cfg : Config) (tc : Option ℚ) (tauPrev hS : ℚ) : ℚ :=
  if tauRecomputeCond cfg then
    let t := cfg.CFL * hS
    if clampCond tc t cfg.t_all cfg.eps then cfg.t_all.getD 0 - tc.getD 0 else t
  else tauPrev

/-- `time_c + tau` on extended time values. -/
def timeAdd (tc : Option ℚ) (tau : ℚ) : Option ℚ :=
  match tc with
  | none => none
  | some c => some (c + tau)

/-- The loop-exit test of line 409:
`time_c > (t_all - eps) || isinf(time_c)`. -/
def stopCheck (tc tAll : Option ℚ) (eps : ℚ) : Bool :=
  match tc with
  | none => true
  | some c =>
      match tAll with
      | none => false
      | some T => decide (c > T - eps)

/-- Reachability side condition used by the march theorems: the running time
does not exceed a finite total time, and is finite whenever the total time
is. -/
def timeOK (tc tAll : Option ℚ) : Bool :=
  match tAll, tc with
  | some T, some c => decide (c ≤ T)
  | some _, none => false
  | none, _ => true

/-- The boundary ghost values of lines 111-112: primitive values, ghost cell
widths and ghost slopes for both ends. -/
structure Ghost where
  UL : ℚ
  PL : ℚ
  RHOL : ℚ
  HL : ℚ
  SUL : ℚ
  SPL : ℚ
  SRHOL : ℚ
  UR : ℚ
  PR : ℚ
  RHOR : ℚ
  HR : ℚ
  SUR : ℚ
  SPR : ℚ
  SRHOR : ℚ
deriving DecidableEq

/-- The ghost record as declared at lines 111-112: widths start at `h`, all
slopes at `0`; the primitive slots are uninitialized in C and are first
written by the boundary switch (modelled as `0`). -/
def ghostInit (h : ℚ) : Ghost :=
  { UL := 0, PL := 0, RHOL := 0, HL := h, SUL := 0, SPL := 0, SRHOL := 0,
    UR := 0, PR := 0, RHOR := 0, HR := h, SUR := 0, SPR := 0, SRHOR := 0 }

/-- State of the march at the top of a loop iteration.  `RHO U P E` are row
`nt-1` (the data being read), `RHO1 U1 P1 E1` row `nt` (the last written
values; rows 2.. of the storage are never touched by this solver).  `X0` is
`X[nt-1]`, `X1` the last written `X[nt]`.  `s_rho s_u s_p` are the `calloc`ed
slope buffers, which persist across iterations. -/
structure State where
  m : ℕ
  RHO : ℕ → ℚ
  U : ℕ → ℚ
  P : ℕ → ℚ
  E : ℕ → ℚ
  RHO1 : ℕ → ℚ
  U1 : ℕ → ℚ
  P1 : ℕ → ℚ
  E1 : ℕ → ℚ
  X0 : ℕ → ℚ
  X1 : ℕ → ℚ
  s_rho : ℕ → ℚ
  s_u : ℕ → ℚ
  s_p : ℕ → ℚ
  g : Ghost
  findBound : Bool
  tau : ℚ
  time_c : Option ℚ

/-- The boundary switch of lines 120-176.  `none` is the `default:` branch
(`goto return_NULL`).  For `bound = -1` the values are frozen after the first
iteration (`find_bound` latch); the slope fields of the ghost are never
touched here. -/
def applyBound (cfg : Config) (s : State) : Option Ghost :=
  if cfg.bound = -1 then
    if s.findBound then some s.g
    else some { s.g with
                UL := s.U 0, UR := s.U (s.m - 1), PL := s.P 0, PR := s.P (s.m - 1),
                RHOL := s.RHO 0, RHOR := s.RHO (s.m - 1), HL := cfg.h, HR := cfg.h }
  else if cfg.bound = -2 then
    some { s.g with
           UL := -(s.U 0), UR := -(s.U (s.m - 1)), PL := s.P 0, PR := s.P (s.m - 1),
           RHOL := s.RHO 0, RHOR := s.RHO (s.m - 1),
           HL := s.X0 1 - s.X0 0, HR := s.X0 s.m - s.X0 (s.m - 1) }
  else if cfg.bound = -4 then
    some { s.g with
           UL := s.U 0, UR := s.U (s.m - 1), PL := s.P 0, PR := s.P (s.m - 1),
           RHOL := s.RHO 0, RHOR := s.RHO (s.m - 1),
           HL := s.X0 1 - s.X0 0, HR := s.X0 s.m - s.X0 (s.m - 1) }
  else if cfg.bound = -5 then
    some { s.g with
           UL := s.U (s.m - 1), UR := s.U 0, PL := s.P (s.m - 1), PR := s.P 0,
           RHOL := s.RHO (s.m - 1), RHOR := s.RHO 0,
           HL := s.X0 s.m - s.X0 (s.m - 1), HR := s.X0 1 - s.X0 0 }
  else if cfg.bound = -24 then
    some { s.g with
           UL := -(s.U 0), UR := s.U (s.m - 1), PL := s.P 0, PR := s.P (s.m - 1),
           RHOL := s.RHO 0, RHOR := s.RHO (s.m - 1),
           HL := s.X0 1 - s.X0 0, HR := s.X0 s.m - s.X0 (s.m - 1) }
  else none

/-- The ghost-slope switch of lines 226-239, run after the slope
reconstruction.  Reflective (`-2`) negates the edge velocity slopes only;
periodic (`-5`) copies all slopes from the opposite edge; `-24` negates the
left velocity slope only.  Every other tag — including free (`-4`) and
initial (`-1`) — leaves the ghost slopes untouched. -/
def ghostSlopeUpdate (bound : ℤ) (m : ℕ) (su sp srho : ℕ → ℚ) (g : Ghost) : Ghost :=
  if bound = -2 then { g with SUL := -(su 0), SUR := -(su (m - 1)) }
  else if bound = -5 then
    { g with
      SUL := su (m - 1), SUR := su 0, SPL := sp (m - 1), SPR := sp 0,
      SRHOL := srho (m - 1), SRHOR := srho 0 }
  else if bound = -24 then { g with SUL := -(su 0) }
  else g

/-- Slope reconstruction of one primitive variable, lines 179-225:
neighbor difference quotients over the half-sum cell distances (ghost values
at the two edge cells), limited by `minmod2` at the first step and by
`minmod3` with tightening `alpha` against the carried-over slope later. -/
def slopeOne (k : ℕ) (alpha : ℚ) (m : ℕ) (X v : ℕ → ℚ) (VL VR HL HR : ℚ)
    (sprev : ℕ → ℚ) (j : ℕ) : ℚ :=
  let hL := if j ≠ 0 then 0.5 * (X (j + 1) - X (j - 1)) else 0.5 * (X (j + 1) - X j + HL)
  let sL := if j ≠ 0 then (v j - v (j - 1)) / hL else (v j - VL) / hL
  let hR := if j < m - 1 then 0.5 * (X (j + 2) - X j) else 0.5 * (X (j + 1) - X j + HR)
  let sR := if j < m - 1 then (v (j + 1) - v j) / hR else (VR - v j) / hR
  if k = 1 then minmod2 sL sR else minmod3 (alpha * sL) (alpha * sR) (sprev j)

/-- The interface data assembled by the loop of lines 241-314 for interface
`j`: reconstructed left/right primitive values and the slopes handed to the
GRP solver. -/
structure IFS where
  hL : ℚ
  rhoL : ℚ
  uL : ℚ
  pL : ℚ
  srhoL : ℚ
  suL : ℚ
  spL : ℚ
  hR : ℚ
  rhoR : ℚ
  uR : ℚ
  pR : ℚ
  srhoR : ℚ
  suR : ℚ
  spR : ℚ
deriving DecidableEq

/-- Lines 247-274 and 291-314: midpoint-extrapolated interface values (cells
`j-1` and `j`, ghosts at `j = 0` and `j = m`; note the `+` sign on the right
ghost extrapolation) and the slopes passed to the GRP call. -/
def mkIFS (m : ℕ) (X RHO U P srho su sp : ℕ → ℚ) (g : Ghost) (j : ℕ) : IFS :=
  let hL := if j ≠ 0 then X j - X (j - 1) else g.HL
  let rhoL := if j ≠ 0 then RHO (j - 1) + 0.5 * hL * srho (j - 1) else g.RHOL + 0.5 * hL * g.SRHOL
  let uL := if j ≠ 0 then U (j - 1) + 0.5 * hL * su (j - 1) else g.UL + 0.5 * hL * g.SUL
  let pL := if j ≠ 0 then P (j - 1) + 0.5 * hL * sp (j - 1) else g.PL + 0.5 * hL * g.SPL
  let hR := if j < m then X (j + 1) - X j else g.HR
  let rhoR := if j < m then RHO j - 0.5 * hR * srho j else g.RHOR + 0.5 * hR * g.SRHOR
  let uR := if j < m then U j - 0.5 * hR * su j else g.UR + 0.5 * hR * g.SUR
  let pR := if j < m then P j - 0.5 * hR * sp j else g.PR + 0.5 * hR * g.SPR
  { hL := hL, rhoL := rhoL, uL := uL, pL := pL,
    srhoL := if j ≠ 0 then srho (j - 1) else g.SRHOL,
    suL := if j ≠ 0 then su (j - 1) else g.SUL,
    spL := if j ≠ 0 then sp (j - 1) else g.SPL,
    hR := hR, rhoR := rhoR, uR := uR, pR := pR,
    srhoR := if j < m then srho j else g.SRHOR,
    suR := if j < m then su j else g.SUR,
    spR := if j < m then sp j else g.SPR }

/-- The validity checks of lines 275-284 on one interface (the `isfinite`
checks cannot fail on `ℚ` values and are not modelled). -/
def ifvalid (eps : ℚ) (i : IFS) : Bool :=
  !(decide (i.pL < eps) || decide (i.pR < eps) || decide (i.rhoL < eps) || decide (i.rhoR < eps))

/-- Return value of the external GRP solver: star state `mid`
(`rho*, u*, p*`), its time derivative `dire`, and the finiteness of `mid[1]`
and `mid[2]` (a float solver can return non-finite values; `ℚ` cannot encode
them, so they are explicit flags). -/
structure GRPout where
  mid : ℚ × ℚ × ℚ
  dire : ℚ × ℚ × ℚ
  midUfin : Bool
  midPfin : Bool

/-- The star-state checks of lines 319-328: `mid[2] < eps`, or `mid[1]` or
`mid[2]` non-finite, raise the cancellation (`time_c = t_all`). -/
def grpTrig (eps : ℚ) (o : GRPout) : Bool :=
  decide (o.mid.2.2 < eps) || !o.midUfin || !o.midPfin

/-- The march's external context: configuration plus the two functions that
live outside the repository sources (the GRP solver and `libm`'s `sqrt`). -/
structure Env where
  cfg : Config
  grp : IFS → GRPout
  sqrtQ : ℚ → ℚ

/-- The reconstructed `s_u` slopes of iteration `k` (lines 179-225). -/
def slU (e : Env) (k : ℕ) (s : State) (g0 : Ghost) : ℕ → ℚ :=
  slopeOne k e.cfg.alpha s.m s.X0 s.U g0.UL g0.UR g0.HL g0.HR s.s_u

/-- The reconstructed `s_p` slopes of iteration `k`. -/
def slP (e : Env) (k : ℕ) (s : State) (g0 : Ghost) : ℕ → ℚ :=
  slopeOne k e.cfg.alpha s.m s.X0 s.P g0.PL g0.PR g0.HL g0.HR s.s_p

/-- The reconstructed `s_rho` slopes of iteration `k`. -/
def slRho (e : Env) (k : ℕ) (s : State) (g0 : Ghost) : ℕ → ℚ :=
  slopeOne k e.cfg.alpha s.m s.X0 s.RHO g0.RHOL g0.RHOR g0.HL g0.HR s.s_rho

/-- The ghost record after the ghost-slope switch of lines 226-239. -/
def gh2 (e : Env) (k : ℕ) (s : State) (g0 : Ghost) : Ghost :=
  ghostSlopeUpdate e.cfg.bound s.m (slU e k s g0) (slP e k s g0) (slRho e k s g0) g0

/-- The interface data of iteration `k` at interface `j`. -/
def ifsOf (e : Env) (k : ℕ) (s : State) (g0 : Ghost) : ℕ → IFS :=
  fun j => mkIFS s.m s.X0 s.RHO s.U s.P (slRho e k s g0) (slU e k s g0) (slP e k s g0)
    (gh2 e k s g0) j

/-- Whether every interface of the iteration passes the validity checks of
lines 275-284 (otherwise: `goto return_NULL`). -/
def reconOK (e : Env) (k : ℕ) (s : State) (g0 : Ghost) : Bool :=
  (List.range (s.m + 1)).all fun j => ifvalid e.cfg.eps (ifsOf e k s g0 j)

/-- The GRP solver's answer at interface `j` (line 317). -/
def gout (e : Env) (k : ℕ) (s : State) (g0 : Ghost) : ℕ → GRPout :=
  fun j => e.grp (ifsOf e k s g0 j)

/-- Whether some interface of the iteration raises the star-state
cancellation of lines 319-328. -/
def trig (e : Env) (k : ℕ) (s : State) (g0 : Ghost) : Bool :=
  (List.range (s.m + 1)).any fun j => grpTrig e.cfg.eps (gout e k s g0 j)

/-- The left CFL contribution `h_L / (fabs(u_L) + fabs(c_L))` of lines
286-288, with `c_L = sqrt(gamma * p_L / rho_L)`. -/
def cflL (e : Env) (k : ℕ) (s : State) (g0 : Ghost) (j : ℕ) : ℚ :=
  (ifsOf e k s g0 j).hL /
    (|(ifsOf e k s g0 j).uL| + |e.sqrtQ (e.cfg.gamma * (ifsOf e k s g0 j).pL / (ifsOf e k s g0 j).rhoL)|)

/-- The right CFL contribution `h_R / (fabs(u_R) + fabs(c_R))` of lines
287-289. -/
def cflR (e : Env) (k : ℕ) (s : State) (g0 : Ghost) (j : ℕ) : ℚ :=
  (ifsOf e k s g0 j).hR /
    (|(ifsOf e k s g0 j).uR| + |e.sqrtQ (e.cfg.gamma * (ifsOf e k s g0 j).pR / (ifsOf e k s g0 j).rhoR)|)

/-- `h_S_max` of the iteration: running `fmin` from `INFINITY` over both
contributions of every interface, extracted as a rational (the list is
nonempty, so the `getD` default is never used). -/
def hSv (e : Env) (k : ℕ) (s : State) (g0 : Ghost) : ℚ :=
  (runMin (contribs (cflL e k s g0) (cflR e k s g0) s.m)).getD 0

/-- `time_c` after the interface loop: the star-state cancellation sets it to
`t_all`. -/
def tcStar (e : Env) (k : ℕ) (s : State) (g0 : Ghost) : Option ℚ :=
  if trig e k s g0 then e.cfg.t_all else s.time_c

/-- The time step selected by iteration `k` (lines 340-345). -/
def tauN (e : Env) (k : ℕ) (s : State) (g0 : Ghost) : ℚ :=
  tauUpdate e.cfg (tcStar e k s g0) s.tau (hSv e k s g0)

/-- The flux-block output at interface `j` (lines 348-364). -/
def fbN (e : Env) (k : ℕ) (s : State) (g0 : Ghost) : ℕ → FluxOut :=
  fun j => fluxBlock e.cfg.gamma (tauN e k s g0) (gout e k s g0 j).mid (gout e k s g0 j).dire

/-- The updated density row of lines 367-373, `nu = tau / h`. -/
def rhoN (e : Env) (k : ℕ) (s : State) (g0 : Ghost) : ℕ → ℚ :=
  fun j => s.RHO j - tauN e k s g0 / e.cfg.h * ((fbN e k s g0 (j + 1)).F1 - (fbN e k s g0 j).F1)

/-- The updated momentum of line 374. -/
def momN (e : Env) (k : ℕ) (s : State) (g0 : Ghost) : ℕ → ℚ :=
  fun j => s.RHO j * s.U j - tauN e k s g0 / e.cfg.h * ((fbN e k s g0 (j + 1)).F2 - (fbN e k s g0 j).F2)

/-- The updated total energy of line 375. -/
def eneN (e : Env) (k : ℕ) (s : State) (g0 : Ghost) : ℕ → ℚ :=
  fun j => s.RHO j * s.E j - tauN e k s g0 / e.cfg.h * ((fbN e k s g0 (j + 1)).F3 - (fbN e k s g0 j).F3)

/-- The recovered velocity of line 377. -/
def uN (e : Env) (k : ℕ) (s : State) (g0 : Ghost) : ℕ → ℚ :=
  fun j => momN e k s g0 j / rhoN e k s g0 j

/-- The recovered specific energy of line 378. -/
def eN (e : Env) (k : ℕ) (s : State) (g0 : Ghost) : ℕ → ℚ :=
  fun j => eneN e k s g0 j / rhoN e k s g0 j

/-- The recovered pressure of line 379. -/
def pN (e : Env) (k : ℕ) (s : State) (g0 : Ghost) : ℕ → ℚ :=
  fun j => (eneN e k s g0 j - 0.5 * momN e k s g0 j * uN e k s g0 j) * (e.cfg.gamma - 1)

/-- Whether some cell's update trips the non-physical checks of lines
381-390 (the `isfinite` checks cannot fail on `ℚ`). -/
def badUp (e : Env) (k : ℕ) (s : State) (g0 : Ghost) : Bool :=
  (List.range s.m).any fun j =>
    decide (pN e k s g0 j < e.cfg.eps) || decide (rhoN e k s g0 j < e.cfg.eps)

/-- `time_c` after the update loop: a non-physical update also sets it to
`t_all`. -/
def tcUp (e : Env) (k : ℕ) (s : State) (g0 : Ghost) : Option ℚ :=
  if badUp e k s g0 then e.cfg.t_all else tcStar e k s g0

/-- `time_c` after line 404 (`time_c += tau`). -/
def tcEnd (e : Env) (k : ℕ) (s : State) (g0 : Ghost) : Option ℚ :=
  timeAdd (tcUp e k s g0) (tauN e k s g0)

/-- The slope buffers recomputed at lines 392-395 from the fully advanced
interface values over the copied grid `X[nt]`. -/
def suNext (e : Env) (k : ℕ) (s : State) (g0 : Ghost) : ℕ → ℚ :=
  fun j => ((fbN e k s g0 (j + 1)).Un - (fbN e k s g0 j).Un) / (s.X0 (j + 1) - s.X0 j)

/-- The recomputed `s_p` buffer of line 394. -/
def spNext (e : Env) (k : ℕ) (s : State) (g0 : Ghost) : ℕ → ℚ :=
  fun j => ((fbN e k s g0 (j + 1)).Pn - (fbN e k s g0 j).Pn) / (s.X0 (j + 1) - s.X0 j)

/-- The recomputed `s_rho` buffer of line 395. -/
def srhoNext (e : Env) (k : ℕ) (s : State) (g0 : Ghost) : ℕ → ℚ :=
  fun j => ((fbN e k s g0 (j + 1)).Rn - (fbN e k s g0 j).Rn) / (s.X0 (j + 1) - s.X0 j)

/-- The state as it stands after the bookkeeping of lines 398-413: row `nt`
holds the updated values, `X[nt]` the copied grid, the slope buffers their
recomputed values; row `nt-1` is still the entry data. -/
def stepState (e : Env) (k : ℕ) (s : State) (g0 : Ghost) : State :=
  { m := s.m, RHO := s.RHO, U := s.U, P := s.P, E := s.E,
    RHO1 := rhoN e k s g0, U1 := uN e k s g0, P1 := pN e k s g0, E1 := eN e k s g0,
    X0 := s.X0, X1 := s.X0,
    s_rho := srhoNext e k s g0, s_u := suNext e k s g0, s_p := spNext e k s g0,
    g := gh2 e k s g0, findBound := true,
    tau := tauN e k s g0, time_c := tcEnd e k s g0 }

/-- The state after the copy-back of lines 416-422 (row `nt` copied onto row
`nt-1`), executed only when the loop continues. -/
def stepCommit (e : Env) (k : ℕ) (s : State) (g0 : Ghost) : State :=
  { stepState e k s g0 with
    RHO := rhoN e k s g0, U := uN e k s g0, P := pN e k s g0, E := eN e k s g0 }

/-- Outcome of one iteration of the main loop: `abort` is `goto return_NULL`
(buffers freed, no bookkeeping, the march function returns), `stop` finishes
the iteration's bookkeeping and `break`s, `next` continues with `k+1`. -/
inductive StepRes where
  | abort : StepRes
  | stop (s : State) : StepRes
  | next (s : State) : StepRes

/-- Whether a step outcome is `abort`. -/
def StepRes.isAbort : StepRes → Bool
  | .abort => true
  | _ => false

/-- Whether a step outcome is `stop`. -/
def StepRes.isStop : StepRes → Bool
  | .stop _ => true
  | _ => false

/-- One iteration `k` of the main loop of lines 115-423, after a successful
boundary switch. -/
def stepAfter (e : Env) (k : ℕ) (s : State) (g0 : Ghost) : StepRes :=
  if reconOK e k s g0 = false then .abort
  else if stopCheck (tcEnd e k s g0) e.cfg.t_all e.cfg.eps then .stop (stepState e k s g0)
  else .next (stepCommit e k s g0)

/-- One iteration `k` of the main loop, including the boundary switch. -/
def step (e : Env) (k : ℕ) (s : State) : StepRes :=
  match applyBound e.cfg s with
  | none => .abort
  | some g0 => stepAfter e k s g0

/-- Outcome of the whole march: aborted (`goto return_NULL`, carrying the
state at entry of the aborting iteration), stopped (the `break` of line 412),
or the step cap `N` ran out; `k` is the iteration number at exit. -/
inductive MarchRes where
  | aborted (s : State) (k : ℕ) : MarchRes
  | stopped (s : State) (k : ℕ) : MarchRes
  | ranOut (s : State) (k : ℕ) : MarchRes

/-- The state carried by a march outcome. -/
def MarchRes.state : MarchRes → State
  | .aborted s _ => s
  | .stopped s _ => s
  | .ranOut s _ => s

/-- Whether the march aborted. -/
def MarchRes.isAborted : MarchRes → Bool
  | .aborted _ _ => true
  | _ => false

/-- Whether the march stopped through the `break` of line 412. -/
def MarchRes.isStopped : MarchRes → Bool
  | .stopped _ _ => true
  | _ => false

/-- The main loop from iteration `k` with `fuel` iterations left. -/
def marchFrom (e : Env) : ℕ → ℕ → State → MarchRes
  | 0, k, s => .ranOut s k
  | fuel + 1, k, s =>
      match step e k s with
      | .abort => .aborted s k
      | .stop s' => .stopped s' k
      | .next s' => marchFrom e fuel (k + 1) s'

/-- The main loop `for (k = 1; k <= N; ++k)`. -/
def march (e : Env) (N : ℕ) (s0 : State) : MarchRes := marchFrom e N 1 s0

/-- What `main` does after the solver returns (hydrocode.c lines 266-268 and
307): `file_1D_write` is called unconditionally and `retval` — which no
calculation path ever sets — is returned. -/
structure MainOut where
  exitCode : ℕ
  writerInvoked : Bool
  res : MarchRes

/-- The tail of `main` applied to a march outcome. -/
def mainFinish (r : MarchRes) : MainOut :=
  { exitCode := 0, writerInvoked := true, res := r }

/-- The whole `main` run on the Eulerian second-order path: march then write
then return 0. -/
def mainRun (e : Env) (N : ℕ) (s0 : State) : MainOut :=
  mainFinish (march e N s0)

/-- The march state as `main` prepares it (hydrocode.c lines 216-220 and
242-244): `X[k][j] = h * j` for every row, energy from the ideal-gas
relation, slope buffers zeroed by `calloc`, `tau` from `config[16]` (the
`getD 0` stands for `INFINITY`, which is overwritten before any use),
`time_c = 0`. -/
def initState (cfg : Config) (m : ℕ) (rho u p : ℕ → ℚ) : State :=
  { m := m, RHO := rho, U := u, P := p,
    E := fun j => 0.5 * u j * u j + p j / (cfg.gamma - 1) / rho j,
    RHO1 := fun _ => 0, U1 := fun _ => 0, P1 := fun _ => 0, E1 := fun _ => 0,
    X0 := fun j => cfg.h * (j : ℚ), X1 := fun j => cfg.h * (j : ℚ),
    s_rho := fun _ => 0, s_u := fun _ => 0, s_p := fun _ => 0,
    g := ghostInit cfg.h, findBound := false,
    tau := cfg.tau16.getD 0, time_c := some 0 }

/-- Configuration in fixed time-step mode: the total time is left at
`INFINITY` and `config[16] = 1/2` is a finite positive fixed step. -/
def cfgC2 : Config :=
  { t_all := none, eps := 1 / 1000000, gamma := 7 / 5, CFL := 9 / 10, h := 1,
    tau16 := some (1 / 2), bound := -1, alpha := 3 / 2 }

/-- Configuration for the non-physical-update run: initial boundary, two
cells, `gamma = 2`, `eps = 1/10`, CFL-controlled step. -/
def cfgC4 : Config :=
  { t_all := some 10, eps := 1 / 10, gamma := 2, CFL := 1 / 2, h := 1,
    tau16 := none, bound := -1, alpha := 3 / 2 }

/-- A GRP stand-in that echoes the reconstructed left state with an amplified
star velocity, producing unequal fluxes across interfaces. -/
def grpC4 : IFS → GRPout :=
  fun i => { mid := (1, (i.pL - 1) * 10, i.pL), dire := (0, 0, 0), midUfin := true, midPfin := true }

/-- Environment of the non-physical-update run. -/
def envC4 : Env := { cfg := cfgC4, grp := grpC4, sqrtQ := fun _ => 1 }

/-- Initial pressures `[1, 2]` of the non-physical-update run. -/
def pC4 : ℕ → ℚ := fun j => if j = 0 then 1 else 2

/-- Initial state of the non-physical-update run. -/
def s0C4 : State := initState cfgC4 2 (fun _ => 1) (fun _ => 0) pC4

/-- Configuration shared by the star-cancellation runs: initial boundary,
`eps = 1/10`. -/
def cfgC5 : Config :=
  { t_all := some 10, eps := 1 / 10, gamma := 7 / 5, CFL := 1 / 2, h := 1,
    tau16 := none, bound := -1, alpha := 3 / 2 }

/-- A GRP stand-in returning the vacuum-like star state `p* = 0`, which is
below every positive `eps`. -/
def grpC5 : IFS → GRPout :=
  fun _ => { mid := (1, 0, 0), dire := (0, 0, 0), midUfin := true, midPfin := true }

/-- Environment of the star-cancellation runs. -/
def envC5 : Env := { cfg := cfgC5, grp := grpC5, sqrtQ := fun _ => 1 }

/-- Initial pressures `[1, 1, -5]`: the last cell makes the reconstruction
check of a later interface fail in the same iteration. -/
def pC5 : ℕ → ℚ := fun j => if j = 2 then -5 else 1

/-- Initial state of the aborting star-cancellation run (three cells). -/
def s0C5 : State := initState cfgC5 3 (fun _ => 1) (fun _ => 0) pC5

/-- The ghost record the boundary switch produces on the aborting run. -/
def gC5 : Ghost :=
  { UL := 0, PL := 1, RHOL := 1, HL := 1, SUL := 0, SPL := 0, SRHOL := 0,
    UR := 0, PR := -5, RHOR := 1, HR := 1, SUR := 0, SPR := 0, SRHOR := 0 }

/-- Initial state of the clean star-cancellation run (two uniform cells). -/
def s0W5 : State := initState cfgC5 2 (fun _ => 1) (fun _ => 0) (fun _ => 1)

/-- The ghost record the boundary switch produces on the clean run. -/
def gW5 : Ghost :=
  { UL := 0, PL := 1, RHOL := 1, HL := 1, SUL := 0, SPL := 0, SRHOL := 0,
    UR := 0, PR := 1, RHOR := 1, HR := 1, SUR := 0, SPR := 0, SRHOR := 0 }

/-- Configuration with the unrecognized boundary tag `-3`. -/
def cfgC7 : Config :=
  { t_all := some 1, eps := 1 / 1000, gamma := 7 / 5, CFL := 1 / 2, h := 1,
    tau16 := none, bound := -3, alpha := 3 / 2 }

/-- Environment of the unknown-boundary run. -/
def envC7 : Env := { cfg := cfgC7, grp := grpC5, sqrtQ := fun _ => 1 }

/-- Initial state of the unknown-boundary run. -/
def s0C7 : State := initState cfgC7 2 (fun _ => 1) (fun _ => 0) (fun _ => 1)

/-- The ghost record the boundary switch produces on the
non-physical-update run. -/
def gC4 : Ghost :=
  { UL := 0, PL := 1, RHOL := 1, HL := 1, SUL := 0, SPL := 0, SRHOL := 0,
    UR := 0, PR := 2, RHOR := 1, HR := 1, SUR := 0, SPR := 0, SRHOR := 0 }

/-- Folding `fminI` from a finite seed yields the minimum of the seed and the
list: it is below the seed, below every element, and attained at one of
them. -/
theorem foldl_fminI_some (l : List ℚ) (a : ℚ) :
    ∃ v, l.foldl fminI (some a) = some v ∧ v ≤ a ∧ (∀ x ∈ l, v ≤ x) ∧ (v = a ∨ v ∈ l) := by
  induction l generalizing a with
  | nil => exact ⟨a, rfl, le_refl a, by simp, Or.inl rfl⟩
  | cons b t ih =>
      obtain ⟨v, hv, hva, hvl, hmem⟩ := ih (min a b)
      refine ⟨v, hv, le_trans hva (min_le_left a b), ?_, ?_⟩
      · intro x hx
        rcases List.mem_cons.mp hx with h | h
        · exact h ▸ le_trans hva (min_le_right a b)
        · exact hvl x h
      · rcases hmem with h | h
        · rcases min_choice a b with hc | hc
          · exact Or.inl (h.trans hc)
          · exact Or.inr (by rw [h, hc]; exact List.mem_cons_self b t)
        · exact Or.inr (List.mem_cons_of_mem b h)

/-- The running minimum from `INFINITY` is below every list element. -/
theorem runMin_le (l : List ℚ) (x : ℚ) (hx : x ∈ l) : (runMin l).getD 0 ≤ x := by
  cases l with
  | nil => cases hx
  | cons b t =>
      obtain ⟨v, hv, hva, hvl, _⟩ := foldl_fminI_some t b
      have hrm : runMin (b :: t) = some v := hv
      rw [hrm]
      rcases List.mem_cons.mp hx with h | h
      · exact h ▸ hva
      · exact hvl x h

/-- The running minimum of nonnegative contributions is nonnegative. -/
theorem runMin_nonneg (l : List ℚ) (h : ∀ x ∈ l, 0 ≤ x) : 0 ≤ (runMin l).getD 0 := by
  cases l with
  | nil => exact le_refl 0
  | cons b t =>
      obtain ⟨v, hv, _, _, hmem⟩ := foldl_fminI_some t b
      have hrm : runMin (b :: t) = some v := hv
      rw [hrm]
      rcases hmem with hb | ht
      · exact hb ▸ h b (List.mem_cons_self b t)
      · exact h v (List.mem_cons_of_mem b ht)

/-- Both contributions of every interface are in the contribution list. -/
theorem mem_contribs (f g : ℕ → ℚ) (m j : ℕ) (hj : j ≤ m) :
    f j ∈ contribs f g m ∧ g j ∈ contribs f g m := by
  induction m with
  | zero =>
      have : j = 0 := Nat.le_zero.mp hj
      subst this
      exact ⟨by simp [contribs], by simp [contribs]⟩
  | succ m ih =>
      rcases Nat.lt_or_ge j (m + 1) with h | h
      · have h' := ih (Nat.lt_succ_iff.mp h)
        exact ⟨List.mem_append_left _ h'.1, List.mem_append_left _ h'.2⟩
      · have : j = m + 1 := le_antisymm hj h
        subst this
        exact ⟨List.mem_append_right _ (by simp), List.mem_append_right _ (by simp)⟩

/-- Every element of the contribution list is one of the two contributions of
some interface `j ≤ m`. -/
theorem mem_contribs_elim (f g : ℕ → ℚ) (m : ℕ) (x : ℚ) (hx : x ∈ contribs f g m) :
    ∃ j, j ≤ m ∧ (x = f j ∨ x = g j) := by
  induction m with
  | zero =>
      rcases List.mem_cons.mp hx with h | h
      · exact ⟨0, le_refl 0, Or.inl h⟩
      · exact ⟨0, le_refl 0, Or.inr (by simpa using h)⟩
  | succ m ih =>
      rcases List.mem_append.mp hx with h | h
      · obtain ⟨j, hj, hor⟩ := ih h
        exact ⟨j, Nat.le_succ_of_le hj, hor⟩
      · rcases List.mem_cons.mp h with h' | h'
        · exact ⟨m + 1, le_refl _, Or.inl h'⟩
        · exact ⟨m + 1, le_refl _, Or.inr (by simpa using h')⟩

/-- C1 counterexample: with star state `(1,1,1)`, time derivative `(1,1,1)`
and `tau = 1`, the interface density stored by the flux-building loop is
`2 = rho* + tau * drho/dt`, not the half-step value `3/2`: the half-step
centering increment is applied twice to the interface state (lines 350 and
359), so it is not applied exactly once as the claim states. -/
theorem C1_counterexample :
    (fluxBlock 2 1 (1, 1, 1) (1, 1, 1)).Rn = 2 ∧
    (1 : ℚ) + 0.5 * 1 * 1 = 3 / 2 ∧ (2 : ℚ) ≠ 3 / 2 := by
  refine ⟨by norm_num [fluxBlock], by norm_num, by norm_num⟩

/-- C1 (amended): the numerical fluxes are built from the star state advanced
by exactly half the time step — `F1 = rho_hat * u_hat`,
`F2 = F1 * u_hat + p_hat`,
`F3 = u_hat * (gamma/(gamma-1) * p_hat + 0.5 * F1 * u_hat)` with
`v_hat = v* + 0.5 * tau * dv*/dt` — but the solver then adds the half-step
increment a second time, so the stored interface state (used for the next
slope recomputation) is advanced by the full time step; `fbN` is the flux
block actually invoked at every interface `j` of a march iteration. -/
theorem C1_flux_half_step (gamma tau : ℚ) (mid dire : ℚ × ℚ × ℚ) :
    (fluxBlock gamma tau mid dire).F1 =
      (mid.1 + 0.5 * tau * dire.1) * (mid.2.1 + 0.5 * tau * dire.2.1) ∧
    (fluxBlock gamma tau mid dire).F2 =
      (fluxBlock gamma tau mid dire).F1 * (mid.2.1 + 0.5 * tau * dire.2.1) +
        (mid.2.2 + 0.5 * tau * dire.2.2) ∧
    (fluxBlock gamma tau mid dire).F3 =
      (mid.2.1 + 0.5 * tau * dire.2.1) *
        ((gamma / (gamma - 1)) * (mid.2.2 + 0.5 * tau * dire.2.2) +
          0.5 * (fluxBlock gamma tau mid dire).F1 * (mid.2.1 + 0.5 * tau * dire.2.1)) ∧
    (fluxBlock gamma tau mid dire).Rn = mid.1 + tau * dire.1 ∧
    (fluxBlock gamma tau mid dire).Un = mid.2.1 + tau * dire.2.1 ∧
    (fluxBlock gamma tau mid dire).Pn = mid.2.2 + tau * dire.2.2 ∧
    ∀ (e : Env) (k : ℕ) (s : State) (g0 : Ghost) (j : ℕ),
      fbN e k s g0 j =
        fluxBlock e.cfg.gamma (tauN e k s g0) (gout e k s g0 j).mid (gout e k s g0 j).dire := by
  refine ⟨?_, ?_, ?_, ?_, ?_, ?_, fun _ _ _ _ _ => rfl⟩ <;> simp only [fluxBlock] <;> ring

/-- C2 counterexample: with an infinite total time and the finite positive
fixed step `config[16] = 1/2`, the guard of line 340 keeps `tau = 1/2`
unchanged even though `CFL * h_S_max = 9/10` (here `h_S_max = 1` comes from a
single interface with `h = 1`, `u = 0`, `c = 1`): the proposed time step is
not `CFL` times the minimum of `dx/(|u|+c)` at every time step. -/
theorem C2_counterexample :
    tauUpdate cfgC2 (some 0) (1 / 2)
        ((runMin (contribs (fun _ => 1 / (|(0 : ℚ)| + |(1 : ℚ)|))
          (fun _ => 1 / (|(0 : ℚ)| + |(1 : ℚ)|)) 1)).getD 0) = 1 / 2 ∧
    cfgC2.CFL * ((runMin (contribs (fun _ => 1 / (|(0 : ℚ)| + |(1 : ℚ)|))
          (fun _ => 1 / (|(0 : ℚ)| + |(1 : ℚ)|)) 1)).getD 0) = 9 / 10 ∧
    (1 : ℚ) / 2 ≠ 9 / 10 := by
  refine ⟨?_, ?_, by norm_num⟩ <;>
    norm_num [tauUpdate, tauRecomputeCond, cfgC2, runMin, contribs, fminI, clampCond]

/-- C2 (amended): whenever the total time is finite or no finite positive
fixed `config[16]` is set (`tauRecomputeCond`), the proposed time step is
`Delta_t = CFL * h_S_max` where `h_S_max` is the running minimum over both
reconstructed states of every interface of `dx / (|u| + |c|)`; it is then
clamped so that `t + Delta_t` never exceeds a finite `t_end`; and on a
uniform grid of width `dx = h ≥ 0` the proposal satisfies
`(|u_j| + |c_j|) * Delta_t ≤ CFL * h` at every interface state.  In fixed
time-step mode (infinite total time with a finite positive `config[16]`) the
previous `tau` is kept instead. -/
theorem C2_time_step (cfg : Config) (uL cL uR cR : ℕ → ℚ) (h : ℚ) (m : ℕ) (tc tauPrev : ℚ)
    (hcond : tauRecomputeCond cfg = true) (heps : 0 ≤ cfg.eps) (hCFL : 0 ≤ cfg.CFL)
    (hh : 0 ≤ h) :
    (clampCond (some tc)
        (cfg.CFL * ((runMin (contribs (fun j => h / (|uL j| + |cL j|))
          (fun j => h / (|uR j| + |cR j|)) m)).getD 0)) cfg.t_all cfg.eps = false →
      tauUpdate cfg (some tc) tauPrev
        ((runMin (contribs (fun j => h / (|uL j| + |cL j|))
          (fun j => h / (|uR j| + |cR j|)) m)).getD 0) =
        cfg.CFL * ((runMin (contribs (fun j => h / (|uL j| + |cL j|))
          (fun j => h / (|uR j| + |cR j|)) m)).getD 0)) ∧
    (∀ T, cfg.t_all = some T →
      tc + tauUpdate cfg (some tc) tauPrev
        ((runMin (contribs (fun j => h / (|uL j| + |cL j|))
          (fun j => h / (|uR j| + |cR j|)) m)).getD 0) ≤ T) ∧
    (∀ j, j ≤ m →
      (|uL j| + |cL j|) *
        (cfg.CFL * ((runMin (contribs (fun j => h / (|uL j| + |cL j|))
          (fun j => h / (|uR j| + |cR j|)) m)).getD 0)) ≤ cfg.CFL * h ∧
      (|uR j| + |cR j|) *
        (cfg.CFL * ((runMin (contribs (fun j => h / (|uL j| + |cL j|))
          (fun j => h / (|uR j| + |cR j|)) m)).getD 0)) ≤ cfg.CFL * h) := by
  set f : ℕ → ℚ := fun j => h / (|uL j| + |cL j|) with hf
  set g : ℕ → ℚ := fun j => h / (|uR j| + |cR j|) with hg
  set hS : ℚ := (runMin (contribs f g m)).getD 0 with hSdef
  have habs : ∀ a b : ℚ, (0 : ℚ) ≤ |a| + |b| := fun a b => add_nonneg (abs_nonneg a) (abs_nonneg b)
  have hSnn : 0 ≤ hS := by
    apply runMin_nonneg
    intro x hx
    obtain ⟨j, _, hor⟩ := mem_contribs_elim f g m x hx
    rcases hor with h' | h'
    · rw [h', hf]
      exact div_nonneg hh (habs _ _)
    · rw [h', hg]
      exact div_nonneg hh (habs _ _)
  have key : ∀ s : ℚ, 0 ≤ s → ∀ y : ℚ, hS ≤ y → y = h / s → s * (cfg.CFL * hS) ≤ cfg.CFL * h := by
    intro s hs y hy hyv
    have h1 : s * hS ≤ s * y := mul_le_mul_of_nonneg_left hy hs
    have h2 : s * y ≤ h := by
      rcases eq_or_lt_of_le hs with h0 | h0
      · rw [← h0, zero_mul]
        exact hh
      · rw [hyv, mul_comm, div_mul_cancel₀ _ (ne_of_gt h0)]
    calc s * (cfg.CFL * hS) = cfg.CFL * (s * hS) := by ring
      _ ≤ cfg.CFL * h := mul_le_mul_of_nonneg_left (h1.trans h2) hCFL
  refine ⟨?_, ?_, ?_⟩
  · intro hcl
    unfold tauUpdate
    simp only [hcond, if_true, ← hSdef, hcl, if_false]
    rfl
  · intro T hT
    unfold tauUpdate
    simp only [hcond, if_true, ← hSdef]
    by_cases hcl : clampCond (some tc) (cfg.CFL * hS) cfg.t_all cfg.eps = true
    · rw [if_pos hcl, hT]
      simp only [Option.getD_some]
      linarith
    · rw [if_neg (by simpa using hcl)]
      have hprop : ¬ (tc + cfg.CFL * hS > T - cfg.eps) := by
        have h' := hcl
        unfold clampCond at h'
        rw [hT] at h'
        simpa using h'
      linarith
  · intro j hj
    have hmem := mem_contribs f g m j hj
    have hle_f : hS ≤ f j := runMin_le _ _ hmem.1
    have hle_g : hS ≤ g j := runMin_le _ _ hmem.2
    exact ⟨key (|uL j| + |cL j|) (habs _ _) (f j) hle_f rfl,
      key (|uR j| + |cR j|) (habs _ _) (g j) hle_g rfl⟩

/-- C2 witness: the amended time-step property applied to a finite total
time `10`, one interface with `u = 0`, `c = 1`, uniform width `1`, at
`time_c = 0`. -/
theorem C2_witness :
    tauRecomputeCond cfgC5 = true ∧ 0 ≤ cfgC5.eps ∧ 0 ≤ cfgC5.CFL ∧ 0 ≤ (1 : ℚ) ∧
    ((clampCond (some 0)
        (cfgC5.CFL * ((runMin (contribs (fun _ => 1 / (|(0 : ℚ)| + |(1 : ℚ)|))
          (fun _ => 1 / (|(0 : ℚ)| + |(1 : ℚ)|)) 0)).getD 0)) cfgC5.t_all cfgC5.eps = false →
      tauUpdate cfgC5 (some 0) 0
        ((runMin (contribs (fun _ => 1 / (|(0 : ℚ)| + |(1 : ℚ)|))
          (fun _ => 1 / (|(0 : ℚ)| + |(1 : ℚ)|)) 0)).getD 0) =
        cfgC5.CFL * ((runMin (contribs (fun _ => 1 / (|(0 : ℚ)| + |(1 : ℚ)|))
          (fun _ => 1 / (|(0 : ℚ)| + |(1 : ℚ)|)) 0)).getD 0)) ∧
    (∀ T, cfgC5.t_all = some T →
      0 + tauUpdate cfgC5 (some 0) 0
        ((runMin (contribs (fun _ => 1 / (|(0 : ℚ)| + |(1 : ℚ)|))
          (fun _ => 1 / (|(0 : ℚ)| + |(1 : ℚ)|)) 0)).getD 0) ≤ T) ∧
    (∀ j, j ≤ 0 →
      (|(0 : ℚ)| + |(1 : ℚ)|) *
        (cfgC5.CFL * ((runMin (contribs (fun _ => 1 / (|(0 : ℚ)| + |(1 : ℚ)|))
          (fun _ => 1 / (|(0 : ℚ)| + |(1 : ℚ)|)) 0)).getD 0)) ≤ cfgC5.CFL * 1 ∧
      (|(0 : ℚ)| + |(1 : ℚ)|) *
        (cfgC5.CFL * ((runMin (contribs (fun _ => 1 / (|(0 : ℚ)| + |(1 : ℚ)|))
          (fun _ => 1 / (|(0 : ℚ)| + |(1 : ℚ)|)) 0)).getD 0)) ≤ cfgC5.CFL * 1)) :=
  ⟨rfl, by norm_num [cfgC5], by norm_num [cfgC5], by norm_num,
    C2_time_step cfgC5 (fun _ => 0) (fun _ => 1) (fun _ => 0) (fun _ => 1) 1 0 0 0
      rfl (by norm_num [envC5, cfgC5]) (by norm_num [envC5, cfgC5]) (by norm_num)⟩

/-- C3: the reconstructed slope of every cell `j < m` and every primitive
variable is `minmod2(s_L, s_R)` at the first step `k = 1` and
`minmod3(alpha*s_L, alpha*s_R, s_prev_j)` at every later step, with
`s_L = (v_j - v_(j-1)) / Dx_L` and `s_R = (v_(j+1) - v_j) / Dx_R`, the ghost
value substituted for the missing neighbor at the two boundary cells. -/
theorem C3_slope_reconstruction (k : ℕ) (alpha : ℚ) (m : ℕ) (X v : ℕ → ℚ)
    (VL VR HL HR : ℚ) (sprev : ℕ → ℚ) (j : ℕ) (hj : j < m) :
    slopeOne k alpha m X v VL VR HL HR sprev j =
      if k = 1 then
        minmod2
          ((v j - (if j = 0 then VL else v (j - 1))) /
            (if j = 0 then 0.5 * (X (j + 1) - X j + HL) else 0.5 * (X (j + 1) - X (j - 1))))
          (((if j = m - 1 then VR else v (j + 1)) - v j) /
            (if j = m - 1 then 0.5 * (X (j + 1) - X j + HR) else 0.5 * (X (j + 2) - X j)))
      else
        minmod3
          (alpha * ((v j - (if j = 0 then VL else v (j - 1))) /
            (if j = 0 then 0.5 * (X (j + 1) - X j + HL) else 0.5 * (X (j + 1) - X (j - 1)))))
          (alpha * (((if j = m - 1 then VR else v (j + 1)) - v j) /
            (if j = m - 1 then 0.5 * (X (j + 1) - X j + HR) else 0.5 * (X (j + 2) - X j))))
          (sprev j) := by
  simp only [slopeOne]
  split_ifs <;> first | rfl | omega

/-- C3 witness: the slope formula applied at the left boundary cell of a
two-cell grid at the first time step. -/
theorem C3_witness :
    (0 : ℕ) < 2 ∧
    slopeOne 1 1 2 (fun _ => (0 : ℚ)) (fun _ => (1 : ℚ)) 1 1 1 1 (fun _ => 0) 0 =
      minmod2 ((1 - 1) / (0.5 * ((0 : ℚ) - 0 + 1))) ((1 - 1) / (0.5 * ((0 : ℚ) - 0))) :=
  ⟨by norm_num,
    C3_slope_reconstruction 1 1 2 (fun _ => (0 : ℚ)) (fun _ => (1 : ℚ)) 1 1 1 1 (fun _ => 0) 0
      (by norm_num)⟩

/-- C6 counterexample: under the free boundary (`-4`) with edge velocity
slope `1`, the ghost velocity slope stays at its initialized `0` — it is not
a copy of the edge cell's slope as the claim states. -/
theorem C6_counterexample :
    (ghostSlopeUpdate (-4) 1 (fun _ => 1) (fun _ => 1) (fun _ => 1) (ghostInit 1)).SUL = 0 ∧
    (0 : ℚ) ≠ 1 := by
  exact ⟨rfl, by norm_num⟩

/-- C6 (amended): from the initialized-zero ghost slopes, reflective (`-2`)
sets the ghost velocity slopes to the negated edge slopes (pressure and
density ghost slopes stay zero), periodic (`-5`) copies all six slopes from
the opposite edge, free (`-4`) and initial (`-1`) leave the ghost record
unchanged — all ghost slopes stay zero, not copies — and `-24` negates the
left velocity slope only. -/
theorem C6_ghost_slopes (m : ℕ) (su sp srho : ℕ → ℚ) (g : Ghost)
    (hz : g.SUL = 0 ∧ g.SPL = 0 ∧ g.SRHOL = 0 ∧ g.SUR = 0 ∧ g.SPR = 0 ∧ g.SRHOR = 0) :
    ((ghostSlopeUpdate (-2) m su sp srho g).SUL = -(su 0) ∧
      (ghostSlopeUpdate (-2) m su sp srho g).SUR = -(su (m - 1)) ∧
      (ghostSlopeUpdate (-2) m su sp srho g).SPL = 0 ∧
      (ghostSlopeUpdate (-2) m su sp srho g).SRHOL = 0) ∧
    ((ghostSlopeUpdate (-5) m su sp srho g).SUL = su (m - 1) ∧
      (ghostSlopeUpdate (-5) m su sp srho g).SUR = su 0 ∧
      (ghostSlopeUpdate (-5) m su sp srho g).SPL = sp (m - 1) ∧
      (ghostSlopeUpdate (-5) m su sp srho g).SPR = sp 0 ∧
      (ghostSlopeUpdate (-5) m su sp srho g).SRHOL = srho (m - 1) ∧
      (ghostSlopeUpdate (-5) m su sp srho g).SRHOR = srho 0) ∧
    (ghostSlopeUpdate (-4) m su sp srho g = g ∧
      (ghostSlopeUpdate (-4) m su sp srho g).SUL = 0 ∧
      (ghostSlopeUpdate (-4) m su sp srho g).SUR = 0) ∧
    (ghostSlopeUpdate (-1) m su sp srho g = g ∧
      (ghostSlopeUpdate (-1) m su sp srho g).SUL = 0 ∧
      (ghostSlopeUpdate (-1) m su sp srho g).SUR = 0) ∧
    (ghostSlopeUpdate (-24) m su sp srho g).SUL = -(su 0) := by
  obtain ⟨h1, h2, h3, h4, h5, h6⟩ := hz
  refine ⟨⟨?_, ?_, ?_, ?_⟩, ⟨?_, ?_, ?_, ?_, ?_, ?_⟩, ⟨?_, ?_, ?_⟩, ⟨?_, ?_, ?_⟩, ?_⟩ <;>
    norm_num [ghostSlopeUpdate, h1, h2, h3, h4, h5, h6]

/-- C6 witness: the amended ghost-slope behavior applied to the initialized
ghost record with edge slopes all `1` on a one-cell grid. -/
theorem C6_witness :
    ((ghostInit 1).SUL = 0 ∧ (ghostInit 1).SPL = 0 ∧ (ghostInit 1).SRHOL = 0 ∧
      (ghostInit 1).SUR = 0 ∧ (ghostInit 1).SPR = 0 ∧ (ghostInit 1).SRHOR = 0) ∧
    (((ghostSlopeUpdate (-2) 1 (fun _ => 1) (fun _ => 1) (fun _ => 1) (ghostInit 1)).SUL =
        -((fun _ => (1 : ℚ)) 0) ∧
      (ghostSlopeUpdate (-2) 1 (fun _ => 1) (fun _ => 1) (fun _ => 1) (ghostInit 1)).SUR =
        -((fun _ => (1 : ℚ)) (1 - 1)) ∧
      (ghostSlopeUpdate (-2) 1 (fun _ => 1) (fun _ => 1) (fun _ => 1) (ghostInit 1)).SPL = 0 ∧
      (ghostSlopeUpdate (-2) 1 (fun _ => 1) (fun _ => 1) (fun _ => 1) (ghostInit 1)).SRHOL = 0) ∧
    ((ghostSlopeUpdate (-5) 1 (fun _ => 1) (fun _ => 1) (fun _ => 1) (ghostInit 1)).SUL =
        (fun _ => (1 : ℚ)) (1 - 1) ∧
      (ghostSlopeUpdate (-5) 1 (fun _ => 1) (fun _ => 1) (fun _ => 1) (ghostInit 1)).SUR =
        (fun _ => (1 : ℚ)) 0 ∧
      (ghostSlopeUpdate (-5) 1 (fun _ => 1) (fun _ => 1) (fun _ => 1) (ghostInit 1)).SPL =
        (fun _ => (1 : ℚ)) (1 - 1) ∧
      (ghostSlopeUpdate (-5) 1 (fun _ => 1) (fun _ => 1) (fun _ => 1) (ghostInit 1)).SPR =
        (fun _ => (1 : ℚ)) 0 ∧
      (ghostSlopeUpdate (-5) 1 (fun _ => 1) (fun _ => 1) (fun _ => 1) (ghostInit 1)).SRHOL =
        (fun _ => (1 : ℚ)) (1 - 1) ∧
      (ghostSlopeUpdate (-5) 1 (fun _ => 1) (fun _ => 1) (fun _ => 1) (ghostInit 1)).SRHOR =
        (fun _ => (1 : ℚ)) 0) ∧
    (ghostSlopeUpdate (-4) 1 (fun _ => 1) (fun _ => 1) (fun _ => 1) (ghostInit 1) = ghostInit 1 ∧
      (ghostSlopeUpdate (-4) 1 (fun _ => 1) (fun _ => 1) (fun _ => 1) (ghostInit 1)).SUL = 0 ∧
      (ghostSlopeUpdate (-4) 1 (fun _ => 1) (fun _ => 1) (fun _ => 1) (ghostInit 1)).SUR = 0) ∧
    (ghostSlopeUpdate (-1) 1 (fun _ => 1) (fun _ => 1) (fun _ => 1) (ghostInit 1) = ghostInit 1 ∧
      (ghostSlopeUpdate (-1) 1 (fun _ => 1) (fun _ => 1) (fun _ => 1) (ghostInit 1)).SUL = 0 ∧
      (ghostSlopeUpdate (-1) 1 (fun _ => 1) (fun _ => 1) (fun _ => 1) (ghostInit 1)).SUR = 0) ∧
    (ghostSlopeUpdate (-24) 1 (fun _ => 1) (fun _ => 1) (fun _ => 1) (ghostInit 1)).SUL =
      -((fun _ => (1 : ℚ)) 0)) :=
  ⟨⟨rfl, rfl, rfl, rfl, rfl, rfl⟩,
    C6_ghost_slopes 1 (fun _ => 1) (fun _ => 1) (fun _ => 1) (ghostInit 1)
      ⟨rfl, rfl, rfl, rfl, rfl, rfl⟩⟩

/-- C8 counterexample: the 2-D reader with a preconfigured cell count `4` and
line/column still unset accepts a first file of `1` line and `3` columns —
`3` elements, disagreeing with the established `4` — without exiting: the
dangling `else` of `flu_var_init` ties the mismatch test to `config[14]`
alone. -/
theorem C8_counterexample :
    fluCount2D 1 3 ⟨some 4, none, none⟩ = .ok ⟨some 4, some 3, some 1⟩ ∧ 1 * 3 ≠ 4 := by
  exact ⟨rfl, by norm_num⟩

/-- C8 (amended): in 1-D any file whose element count disagrees with the
established count exits with status 2; in 2-D the counts are checked — and a
mismatch in elements, columns or lines exits with status 2 — whenever the
line count `config[14]` is already established (the check is skipped while it
is unset, even against an established cell count). -/
theorem C8_count_agreement :
    (∀ n v : ℕ, 1 ≤ n → n ≠ v → fluCount1D n (some v) = .exit2) ∧
    (∀ line column c3 c13 l14 : ℕ, 1 ≤ line * column →
      (line * column ≠ c3 ∨ column ≠ c13 ∨ line ≠ l14) →
      fluCount2D line column ⟨some c3, some c13, some l14⟩ = .exit2) := by
  constructor
  · intro n v h1 hne
    unfold fluCount1D
    rw [if_neg (by omega)]
    show (if n ≠ v then Read1D.exit2 else Read1D.ok v) = Read1D.exit2
    rw [if_pos hne]
  · intro line column c3 c13 l14 h1 hmis
    unfold fluCount2D
    rw [if_neg (by omega : ¬ line * column < 1)]
    show (if line * column ≠ c3 ∨ column ≠ c13 ∨ line ≠ l14
        then Read2D.exit2 else Read2D.ok ⟨some c3, some c13, some l14⟩) = Read2D.exit2
    rw [if_pos hmis]

/-- C8 witness: the amended count check applied to a 1-D file of `2` elements
against an established count `3`, and a 2-D file of `2x2` elements against an
established cell count `5`. -/
theorem C8_witness :
    (1 ≤ 2 ∧ (2 : ℕ) ≠ 3 ∧ fluCount1D 2 (some 3) = .exit2) ∧
    (1 ≤ 2 * 2 ∧ (2 * 2 ≠ 5 ∨ (2 : ℕ) ≠ 2 ∨ (2 : ℕ) ≠ 2) ∧
      fluCount2D 2 2 ⟨some 5, some 2, some 2⟩ = .exit2) :=
  ⟨⟨by decide, by decide, C8_count_agreement.1 2 3 (by decide) (by decide)⟩,
    ⟨by decide, Or.inl (by decide),
      C8_count_agreement.2 2 2 5 2 2 (by decide) (Or.inl (by decide))⟩⟩

/-- C9: the limiters modelled from the spec satisfy `minmod2(a,a) = a`,
`minmod2(a,-a) = 0` and `minmod3(a,a,a) = a` for every real `a`. -/
theorem C9_minmod_idempotence :
    (∀ a : ℝ, minmod2 a a = a) ∧ (∀ a : ℝ, minmod2 a (-a) = 0) ∧
    (∀ a : ℝ, minmod3 a a a = a) := by
  refine ⟨fun a => ?_, fun a => ?_, fun a => ?_⟩
  · unfold minmod2
    rcases lt_trichotomy a 0 with h | h | h
    · rw [if_neg (by nlinarith : ¬ a * a ≤ 0), if_neg (not_lt.mpr h.le), abs_of_neg h]
      simp
    · simp [h]
    · rw [if_neg (by nlinarith : ¬ a * a ≤ 0), if_pos h, abs_of_pos h]
      simp
  · unfold minmod2
    rw [if_pos (by rw [mul_neg]; exact neg_nonpos.mpr (mul_self_nonneg a))]
  · unfold minmod3
    rcases lt_trichotomy a 0 with h | h | h
    · rw [if_neg (by rintro ⟨h1, -, -⟩; exact absurd h1 (not_lt.mpr h.le)),
        if_pos ⟨h, h, h⟩, abs_of_neg h]
      simp
    · simp [h]
    · rw [if_pos ⟨h, h, h⟩, abs_of_pos h]
      simp

/-- The march never changes the grid row it reads (`X[nt-1]`) and writes
`X[nt]` only as a copy of it: whatever the outcome, the final `X0` is the
initial one and the final `X1` is the initial `X1` or a copy of `X0`. -/
theorem marchFrom_X (e : Env) (fuel : ℕ) : ∀ (k : ℕ) (s : State),
    (marchFrom e fuel k s).state.X0 = s.X0 ∧
    ((marchFrom e fuel k s).state.X1 = s.X1 ∨ (marchFrom e fuel k s).state.X1 = s.X0) := by
  induction fuel with
  | zero => exact fun k s => ⟨rfl, Or.inl rfl⟩
  | succ fuel ih =>
      intro k s
      cases hab : applyBound e.cfg s with
      | none =>
          simp only [marchFrom, step, hab]
          exact ⟨rfl, Or.inl rfl⟩
      | some g0 =>
          by_cases hrec : reconOK e k s g0 = false
          · have hsa : stepAfter e k s g0 = .abort := by
              unfold stepAfter
              rw [if_pos hrec]
            simp only [marchFrom, step, hab, hsa]
            exact ⟨rfl, Or.inl rfl⟩
          · by_cases hstop : stopCheck (tcEnd e k s g0) e.cfg.t_all e.cfg.eps = true
            · have hsa : stepAfter e k s g0 = .stop (stepState e k s g0) := by
                unfold stepAfter
                rw [if_neg hrec, if_pos hstop]
              simp only [marchFrom, step, hab, hsa]
              exact ⟨rfl, Or.inr rfl⟩
            · have hsa : stepAfter e k s g0 = .next (stepCommit e k s g0) := by
                unfold stepAfter
                rw [if_neg hrec, if_neg hstop]
              have hih := ih (k + 1) (stepCommit e k s g0)
              simp only [marchFrom, step, hab, hsa]
              refine ⟨hih.1.trans rfl, ?_⟩
              rcases hih.2 with h | h
              · exact Or.inr (h.trans rfl)
              · exact Or.inr (h.trans rfl)

/-- C10: in the Eulerian march started from `main`'s initial grid, the grid
never moves — after any number of steps both stored grid rows equal the
initial coordinates `X[0][j] = h * j` — and the solver writes `X[nt][j]` only
as a copy of `X[nt-1][j]`. -/
theorem C10_grid_never_moves (e : Env) (N m : ℕ) (rho u p : ℕ → ℚ) :
    (∀ j, (march e N (initState e.cfg m rho u p)).state.X0 j = e.cfg.h * j) ∧
    (∀ j, (march e N (initState e.cfg m rho u p)).state.X1 j = e.cfg.h * j) ∧
    (∀ (k : ℕ) (s : State) (g0 : Ghost) (j : ℕ), (stepState e k s g0).X1 j = s.X0 j) ∧
    (∀ j, (initState e.cfg m rho u p).X0 j = e.cfg.h * j) := by
  obtain ⟨h0, h1⟩ := marchFrom_X e N 1 (initState e.cfg m rho u p)
  refine ⟨fun j => ?_, fun j => ?_, fun k s g0 j => rfl, fun j => rfl⟩
  · simp only [march]
    rw [h0]
    rfl
  · simp only [march]
    rcases h1 with h | h <;> rw [h] <;> rfl

/-- After a cancellation has set the running time to the total time, an
iteration whose reconstruction is valid finishes its bookkeeping and the
`break` of line 412 fires: with `t_all` finite the clamp makes the selected
`tau` exceed `-eps`, so `time_c + tau > t_all - eps`; with `t_all` infinite
`time_c` becomes infinite and the `isinf` test fires. -/
theorem cancelStop (e : Env) (k : ℕ) (s : State) (g0 : Ghost)
    (hrecon : reconOK e k s g0 = true)
    (hcancel : tcUp e k s g0 = e.cfg.t_all)
    (htc1 : timeOK (tcStar e k s g0) e.cfg.t_all = true)
    (heps : 0 < e.cfg.eps) (hCFL : 0 ≤ e.cfg.CFL) (hhS : 0 ≤ hSv e k s g0) :
    stepAfter e k s g0 = .stop (stepState e k s g0) := by
  have hstop : stopCheck (tcEnd e k s g0) e.cfg.t_all e.cfg.eps = true := by
    unfold tcEnd
    rw [hcancel]
    cases hT : e.cfg.t_all with
    | none => rfl
    | some T =>
        have htau : -e.cfg.eps < tauN e k s g0 := by
          have hcond : tauRecomputeCond e.cfg = true := by
            unfold tauRecomputeCond
            rw [hT]
            rfl
          unfold tauN tauUpdate
          simp only [hcond, eq_self_iff_true, if_true, hT]
          by_cases hcl :
              clampCond (tcStar e k s g0) (e.cfg.CFL * hSv e k s g0) (some T) e.cfg.eps = true
          · rw [if_pos hcl]
            cases hts : tcStar e k s g0 with
            | none =>
                rw [hts, hT] at htc1
                simp [timeOK] at htc1
            | some c =>
                rw [hts, hT] at htc1
                have hc : c ≤ T := by simpa [timeOK] using htc1
                simp only [Option.getD_some]
                linarith
          · rw [if_neg hcl]
            have hnn : 0 ≤ e.cfg.CFL * hSv e k s g0 := mul_nonneg hCFL hhS
            linarith
        unfold timeAdd stopCheck
        exact decide_eq_true (by linarith)
  unfold stepAfter
  rw [if_neg (by simp [hrecon]), if_pos hstop]

/-- C5 counterexample: on a run whose third initial cell has `p = -5`, the
GRP solver is called and returns the non-physical star `p* = 0 < eps` at
interface `0`, yet iteration `1` hits the reconstruction validity check at a
later interface and takes `goto return_NULL`: the solver frees its buffers
and returns without recording `cpu_time[nt]` or printing the progress
message, so the step does not finish its bookkeeping as the claim states
(no step `2` is begun either way). -/
theorem C5_counterexample :
    applyBound cfgC5 s0C5 = some gC5 ∧
    (envC5.grp (ifsOf envC5 1 s0C5 gC5 0)).mid.2.2 < cfgC5.eps ∧
    (step envC5 1 s0C5).isAbort = true ∧
    (marchFrom envC5 5 1 s0C5).isAborted = true := by
  refine ⟨?_, ?_, ?_, ?_⟩
  · norm_num [applyBound, cfgC5, s0C5, initState, ghostInit, pC5, gC5, Ghost.mk.injEq]
  · norm_num [envC5, grpC5, cfgC5]
  · norm_num [step, applyBound, stepAfter, reconOK, ifvalid, ifsOf, mkIFS, slU, slP, slRho,
      gh2, ghostSlopeUpdate, slopeOne, minmod2, minmod3, s0C5, cfgC5, envC5, initState,
      ghostInit, pC5, List.range_succ, StepRes.isAbort]
  · norm_num [marchFrom, step, applyBound, stepAfter, reconOK, ifvalid, ifsOf, mkIFS,
      slU, slP, slRho, gh2, ghostSlopeUpdate, slopeOne, minmod2, minmod3, s0C5, cfgC5, envC5,
      initState, ghostInit, pC5, List.range_succ, MarchRes.isAborted]

/-- C5 (amended): if the GRP solver raises the star-state cancellation at
some interface of iteration `k` and every interface of that iteration passes
the reconstruction validity checks, then iteration `k` finishes its
bookkeeping, the loop `break`s, and no iteration `k+1` is ever begun
(if instead some reconstruction check fails, the iteration aborts without
bookkeeping — and no iteration `k+1` is begun either). -/
theorem C5_sticky_cancellation (e : Env) (fuel k : ℕ) (s : State) (g0 : Ghost)
    (hb : applyBound e.cfg s = some g0)
    (hrecon : reconOK e k s g0 = true)
    (htrig : trig e k s g0 = true)
    (heps : 0 < e.cfg.eps) (hCFL : 0 ≤ e.cfg.CFL) (hhS : 0 ≤ hSv e k s g0) :
    marchFrom e (fuel + 1) k s = .stopped (stepState e k s g0) k := by
  have htcs : tcStar e k s g0 = e.cfg.t_all := by
    unfold tcStar
    simp [htrig]
  have hcancel : tcUp e k s g0 = e.cfg.t_all := by
    unfold tcUp
    rw [htcs]
    cases hbu : badUp e k s g0 <;> simp [hbu]
  have htc1 : timeOK (tcStar e k s g0) e.cfg.t_all = true := by
    rw [htcs]
    cases e.cfg.t_all with
    | none => rfl
    | some T => simp [timeOK]
  have hsa := cancelStop e k s g0 hrecon hcancel htc1 heps hCFL hhS
  simp only [marchFrom, step, hb, hsa]

set_option maxHeartbeats 2000000 in
/-- C5 witness: the amended cancellation property applied to the clean
two-cell run on which the GRP stand-in returns `p* = 0` everywhere. -/
theorem C5_witness :
    applyBound cfgC5 s0W5 = some gW5 ∧ reconOK envC5 1 s0W5 gW5 = true ∧
    trig envC5 1 s0W5 gW5 = true ∧ 0 < cfgC5.eps ∧ 0 ≤ cfgC5.CFL ∧
    0 ≤ hSv envC5 1 s0W5 gW5 ∧
    marchFrom envC5 5 1 s0W5 = .stopped (stepState envC5 1 s0W5 gW5) 1 :=
  ⟨by norm_num [applyBound, cfgC5, s0W5, initState, ghostInit, gW5, Ghost.mk.injEq],
    by norm_num [reconOK, ifvalid, ifsOf, mkIFS, slU, slP, slRho, gh2, ghostSlopeUpdate,
      slopeOne, minmod2, minmod3, s0W5, cfgC5, envC5, initState, ghostInit, gW5,
      List.range_succ],
    by norm_num [trig, gout, grpTrig, envC5, grpC5, cfgC5, List.range_succ],
    by norm_num [cfgC5], by norm_num [cfgC5],
    by norm_num [hSv, runMin, contribs, fminI, cflL, cflR, ifsOf, mkIFS, slU, slP, slRho,
      gh2, ghostSlopeUpdate, slopeOne, minmod2, minmod3, s0W5, cfgC5, envC5, initState,
      ghostInit, gW5],
    C5_sticky_cancellation envC5 4 1 s0W5 gW5
      (by norm_num [applyBound, envC5, cfgC5, s0W5, initState, ghostInit, gW5, Ghost.mk.injEq])
      (by norm_num [reconOK, ifvalid, ifsOf, mkIFS, slU, slP, slRho, gh2, ghostSlopeUpdate,
        slopeOne, minmod2, minmod3, s0W5, cfgC5, envC5, initState, ghostInit, gW5,
        List.range_succ])
      (by norm_num [trig, gout, grpTrig, envC5, grpC5, cfgC5, List.range_succ])
      (by norm_num [envC5, cfgC5]) (by norm_num [envC5, cfgC5])
      (by norm_num [hSv, runMin, contribs, fminI, cflL, cflR, ifsOf, mkIFS, slU, slP, slRho,
        gh2, ghostSlopeUpdate, slopeOne, minmod2, minmod3, s0W5, cfgC5, envC5, initState,
        ghostInit, gW5])⟩

set_option maxHeartbeats 4000000 in
/-- C4 counterexample: a run whose cell update produces the non-physical
density `-4 < eps` in cell `1` of step `1`: the march is cancelled with the
last good snapshot preserved in row `nt-1` and the output writer is invoked
on the partial history, but the process exit status is `0`, not the
calculation-error status `3` — no code path of `main` ever sets `retval` to
`3`. -/
theorem C4_counterexample :
    (march envC4 9 s0C4).isStopped = true ∧
    (march envC4 9 s0C4).state.RHO1 1 < cfgC4.eps ∧
    (march envC4 9 s0C4).state.RHO 1 = s0C4.RHO 1 ∧
    (mainRun envC4 9 s0C4).writerInvoked = true ∧
    (mainRun envC4 9 s0C4).exitCode = 0 ∧ (0 : ℕ) ≠ 3 := by
  refine ⟨?_, ?_, ?_, rfl, rfl, by norm_num⟩ <;>
  norm_num [march, marchFrom, step, applyBound, stepAfter, reconOK, ifvalid, ifsOf, mkIFS,
    slU, slP, slRho, gh2, ghostSlopeUpdate, slopeOne, minmod2, minmod3, s0C4, cfgC4, envC4,
    initState, ghostInit, pC4, grpC4, List.range_succ, MarchRes.isStopped, MarchRes.state,
    trig, gout, grpTrig, tcStar, tauN, tauUpdate, tauRecomputeCond, clampCond, hSv, runMin,
    contribs, fminI, cflL, cflR, stopCheck, tcEnd, tcUp, badUp, timeAdd, rhoN, momN, eneN,
    uN, eN, pN, fbN, fluxBlock, stepState, stepCommit, suNext, spNext, srhoNext]

/-- C4 (amended): whenever the cell update of an iteration produces a
non-physical state (`p < eps` or `rho < eps`), the march is cancelled — the
iteration finishes its bookkeeping and no further iteration begins — the
entry row `nt-1` (the last good snapshot) is left in place, the output writer
is still invoked, and the process exits with status `0`, not with the
documented calculation-error status `3`. -/
theorem C4_nonphysical_update (e : Env) (fuel k : ℕ) (s : State) (g0 : Ghost)
    (hb : applyBound e.cfg s = some g0)
    (hrecon : reconOK e k s g0 = true)
    (hbad : badUp e k s g0 = true)
    (htc : timeOK s.time_c e.cfg.t_all = true)
    (heps : 0 < e.cfg.eps) (hCFL : 0 ≤ e.cfg.CFL) (hhS : 0 ≤ hSv e k s g0) :
    marchFrom e (fuel + 1) k s = .stopped (stepState e k s g0) k ∧
    (∀ j, (stepState e k s g0).RHO j = s.RHO j) ∧
    (mainFinish (marchFrom e (fuel + 1) k s)).exitCode = 0 ∧
    (mainFinish (marchFrom e (fuel + 1) k s)).writerInvoked = true := by
  have hcancel : tcUp e k s g0 = e.cfg.t_all := by
    unfold tcUp
    simp [hbad]
  have htc1 : timeOK (tcStar e k s g0) e.cfg.t_all = true := by
    unfold tcStar
    cases htr : trig e k s g0 with
    | false =>
        simpa using htc
    | true =>
        simp only [if_true]
        cases e.cfg.t_all with
        | none => rfl
        | some T => simp [timeOK]
  have hsa := cancelStop e k s g0 hrecon hcancel htc1 heps hCFL hhS
  have hmf : marchFrom e (fuel + 1) k s = .stopped (stepState e k s g0) k := by
    simp only [marchFrom, step, hb, hsa]
  exact ⟨hmf, fun j => rfl, rfl, rfl⟩

set_option maxHeartbeats 4000000 in
/-- C4 witness: the amended non-physical-update property applied to the
two-cell run whose update drives the density of cell `1` to `-4`. -/
theorem C4_witness :
    applyBound cfgC4 s0C4 = some gC4 ∧ reconOK envC4 1 s0C4 gC4 = true ∧
    badUp envC4 1 s0C4 gC4 = true ∧ timeOK s0C4.time_c cfgC4.t_all = true ∧
    0 < cfgC4.eps ∧ 0 ≤ cfgC4.CFL ∧ 0 ≤ hSv envC4 1 s0C4 gC4 ∧
    (marchFrom envC4 5 1 s0C4 = .stopped (stepState envC4 1 s0C4 gC4) 1 ∧
      (∀ j, (stepState envC4 1 s0C4 gC4).RHO j = s0C4.RHO j) ∧
      (mainFinish (marchFrom envC4 5 1 s0C4)).exitCode = 0 ∧
      (mainFinish (marchFrom envC4 5 1 s0C4)).writerInvoked = true) :=
  ⟨by norm_num [applyBound, cfgC4, s0C4, initState, ghostInit, pC4, gC4, Ghost.mk.injEq],
    by norm_num [reconOK, ifvalid, ifsOf, mkIFS, slU, slP, slRho, gh2, ghostSlopeUpdate,
      slopeOne, minmod2, minmod3, s0C4, cfgC4, envC4, initState, ghostInit, pC4, gC4,
      List.range_succ],
    by norm_num [badUp, rhoN, momN, eneN, uN, eN, pN, fbN, fluxBlock, gout, grpC4, envC4,
      tauN, tauUpdate, tauRecomputeCond, clampCond, tcStar, trig, grpTrig, hSv, runMin,
      contribs, fminI, cflL, cflR, ifsOf, mkIFS, slU, slP, slRho, gh2, ghostSlopeUpdate,
      slopeOne, minmod2, minmod3, s0C4, cfgC4, initState, ghostInit, pC4, gC4,
      List.range_succ],
    by norm_num [timeOK, s0C4, initState, cfgC4],
    by norm_num [cfgC4], by norm_num [cfgC4],
    by norm_num [hSv, runMin, contribs, fminI, cflL, cflR, ifsOf, mkIFS, slU, slP, slRho,
      gh2, ghostSlopeUpdate, slopeOne, minmod2, minmod3, s0C4, cfgC4, envC4, initState,
      ghostInit, pC4, gC4],
    C4_nonphysical_update envC4 4 1 s0C4 gC4
      (by norm_num [applyBound, envC4, cfgC4, s0C4, initState, ghostInit, pC4, gC4, Ghost.mk.injEq])
      (by norm_num [reconOK, ifvalid, ifsOf, mkIFS, slU, slP, slRho, gh2, ghostSlopeUpdate,
        slopeOne, minmod2, minmod3, s0C4, cfgC4, envC4, initState, ghostInit, pC4, gC4,
        List.range_succ])
      (by norm_num [badUp, rhoN, momN, eneN, uN, eN, pN, fbN, fluxBlock, gout, grpC4, envC4,
        tauN, tauUpdate, tauRecomputeCond, clampCond, tcStar, trig, grpTrig, hSv, runMin,
        contribs, fminI, cflL, cflR, ifsOf, mkIFS, slU, slP, slRho, gh2, ghostSlopeUpdate,
        slopeOne, minmod2, minmod3, s0C4, cfgC4, initState, ghostInit, pC4, gC4,
        List.range_succ])
      (by norm_num [timeOK, s0C4, initState, envC4, cfgC4])
      (by norm_num [envC4, cfgC4]) (by norm_num [envC4, cfgC4])
      (by norm_num [hSv, runMin, contribs, fminI, cflL, cflR, ifsOf, mkIFS, slU, slP, slRho,
        gh2, ghostSlopeUpdate, slopeOne, minmod2, minmod3, s0C4, cfgC4, envC4, initState,
        ghostInit, pC4, gC4])⟩

/-- C7 counterexample: with the unrecognized boundary tag `-3` the solver
aborts its first iteration before any cell update — row `nt` of the run
stays unwritten — yet the process still writes its output and exits with
the success status `0`, which differs from every configured error status
`1..5`: the run does not report the unknown boundary through an exit code. -/
theorem C7_counterexample :
    (march envC7 5 s0C7).isAborted = true ∧
    (∀ j, (march envC7 5 s0C7).state.RHO1 j = 0) ∧
    (mainRun envC7 5 s0C7).writerInvoked = true ∧
    (mainRun envC7 5 s0C7).exitCode = 0 ∧
    ((0 : ℕ) ≠ 1 ∧ (0 : ℕ) ≠ 2 ∧ (0 : ℕ) ≠ 3 ∧ (0 : ℕ) ≠ 4 ∧ (0 : ℕ) ≠ 5) := by
  exact ⟨rfl, fun j => rfl, rfl, rfl, by norm_num⟩

/-- C7 (amended): for every boundary tag outside `{-1, -2, -4, -5, -24}` the
solver performs no cell update — the march aborts at once with the entry
state intact, in particular row `nt` keeps whatever it held — and the
process still invokes the output writer and exits with status `0` instead of
reporting an error status. -/
theorem C7_unknown_boundary (e : Env) (fuel k : ℕ) (s : State)
    (hb1 : e.cfg.bound ≠ -1) (hb2 : e.cfg.bound ≠ -2) (hb4 : e.cfg.bound ≠ -4)
    (hb5 : e.cfg.bound ≠ -5) (hb24 : e.cfg.bound ≠ -24) :
    marchFrom e (fuel + 1) k s = .aborted s k ∧
    (∀ j, (marchFrom e (fuel + 1) k s).state.RHO1 j = s.RHO1 j) ∧
    (mainFinish (marchFrom e (fuel + 1) k s)).exitCode = 0 ∧
    (mainFinish (marchFrom e (fuel + 1) k s)).writerInvoked = true := by
  have hab : applyBound e.cfg s = none := by
    unfold applyBound
    rw [if_neg hb1, if_neg hb2, if_neg hb4, if_neg hb5, if_neg hb24]
  have hstep : step e k s = .abort := by
    unfold step
    rw [hab]
  have hmf : marchFrom e (fuel + 1) k s = .aborted s k := by
    simp only [marchFrom, hstep]
  refine ⟨hmf, fun j => ?_, rfl, rfl⟩
  rw [hmf]
  rfl

/-- C7 witness: the amended unknown-boundary property applied to the run
with boundary tag `-3`. -/
theorem C7_witness :
    cfgC7.bound ≠ -1 ∧ cfgC7.bound ≠ -2 ∧ cfgC7.bound ≠ -4 ∧ cfgC7.bound ≠ -5 ∧
    cfgC7.bound ≠ -24 ∧
    (marchFrom envC7 3 1 s0C7 = .aborted s0C7 1 ∧
      (∀ j, (marchFrom envC7 3 1 s0C7).state.RHO1 j = s0C7.RHO1 j) ∧
      (mainFinish (marchFrom envC7 3 1 s0C7)).exitCode = 0 ∧
      (mainFinish (marchFrom envC7 3 1 s0C7)).writerInvoked = true) :=
  ⟨by decide, by decide, by decide, by decide, by decide,
    C7_unknown_boundary envC7 2 1 s0C7 (by decide) (by decide) (by decide) (by decide)
      (by decide)⟩

end ALE
